import Mathlib

/-!
Verification of the Detective Stylus scoring contract
(`src/contracts/stylus-verifier/src/main.rs`).

The contract is a stateless scoring engine offering two pure entrypoints over
256-bit unsigned integers (`U256`):

* `verify_humanity_score(correct_guesses, total_matches, avg_response_time_ms)`
  returns a boolean deciding whether a gameplay record is consistent with human
  behaviour;
* `calculate_deception_rating(times_fooled_human, total_interactions)` returns a
  percentage rating.

We embed `U256` values as natural numbers below `2 ^ 256`.  The contract is
compiled in release mode, where the `U256` multiplication of the
`alloy_primitives`/`ruint` stack wraps modulo `2 ^ 256`; the embedding makes
this wrap explicit with `% U256.size` on the product.  Division is the
truncating natural-number division, exactly as on `U256`.
-/

namespace Detective

/-- The number of values of the 256-bit unsigned integer type `U256`:
`2 ^ 256`.  A `U256` value is a natural number strictly below this bound, and
wrapping multiplication reduces modulo it. -/
def U256.size : Nat := 2 ^ 256

/-- Embedding of `DetectiveStylusVerifier::verify_humanity_score`
(src/contracts/stylus-verifier/src/main.rs lines 23-46).

Rust body:
```
if total_matches == U256::ZERO { return false; }
let accuracy = (correct_guesses * U256::from(100)) / total_matches;
let min_human_latency = U256::from(500);
let max_human_latency = U256::from(240_000);
accuracy > U256::from(60)
    && avg_response_time_ms > min_human_latency
    && avg_response_time_ms < max_human_latency
```
The product `correct_guesses * 100` is `U256` multiplication, hence the
reduction modulo `U256.size`. -/
def verify_humanity_score (correct_guesses total_matches avg_response_time_ms : Nat) : Bool :=
  if total_matches = 0 then
    false
  else
    let accuracy := correct_guesses * 100 % U256.size / total_matches
    let min_human_latency := 500
    let max_human_latency := 240000
    decide (accuracy > 60)
      && decide (avg_response_time_ms > min_human_latency)
      && decide (avg_response_time_ms < max_human_latency)

/-- Embedding of `DetectiveStylusVerifier::calculate_deception_rating`
(src/contracts/stylus-verifier/src/main.rs lines 50-60).

Rust body:
```
if total_interactions == U256::ZERO { return U256::ZERO; }
(times_fooled_human * U256::from(100)) / total_interactions
```
The product `times_fooled_human * 100` is `U256` multiplication, hence the
reduction modulo `U256.size`. -/
def calculate_deception_rating (times_fooled_human total_interactions : Nat) : Nat :=
  if total_interactions = 0 then
    0
  else
    times_fooled_human * 100 % U256.size / total_interactions

end Detective

namespace Detective

/-- C3: for every `correct_guesses` and `avg_response_time_ms`,
`verify_humanity_score correct_guesses 0 avg_response_time_ms` returns `false`:
the zero-denominator guard fires before any division. -/
theorem verify_humanity_score_zero_matches (c r : Nat) :
    verify_humanity_score c 0 r = false := by
  simp [verify_humanity_score]

/-- C4: for every `times_fooled_human`,
`calculate_deception_rating times_fooled_human 0` returns `0`:
the zero-denominator guard fires before any division. -/
theorem calculate_deception_rating_zero_interactions (f : Nat) :
    calculate_deception_rating f 0 = 0 := by
  simp [calculate_deception_rating]

/-- C6: the boundary cases of `verify_humanity_score`:
`(61, 100, 501) = true`, `(60, 100, 501) = false`, `(80, 100, 500) = false`,
`(80, 100, 240000) = false`, `(0, 0, 1000) = false`. -/
theorem verify_humanity_score_boundary_cases :
    verify_humanity_score 61 100 501 = true ∧
    verify_humanity_score 60 100 501 = false ∧
    verify_humanity_score 80 100 500 = false ∧
    verify_humanity_score 80 100 240000 = false ∧
    verify_humanity_score 0 0 1000 = false := by
  refine ⟨?_, ?_, ?_, ?_, ?_⟩ <;> decide

/-- C1 counterexample: at `correct_guesses = 2 ^ 254`, `total_matches = 1`,
`avg_response_time_ms = 1000`, the plain-arithmetic accuracy
`2 ^ 254 * 100 / 1` exceeds `60` and the latency lies strictly between `500`
and `240000`, yet `verify_humanity_score` returns `false`: the `U256` product
`2 ^ 254 * 100` wraps to `0` modulo `2 ^ 256`. -/
theorem verify_humanity_score_overflow_cex :
    verify_humanity_score (2 ^ 254) 1 1000 = false ∧
      60 < 2 ^ 254 * 100 / 1 ∧ 500 < 1000 ∧ 1000 < 240000 ∧ 0 < 1 := by
  refine ⟨by decide, by decide, by decide, by decide, by decide⟩

/-- C1 (amended): for every `correct_guesses`, `avg_response_time_ms` and
`total_matches > 0`, `verify_humanity_score` returns `true` if and only if all
three hold: `(correct_guesses * 100 mod 2 ^ 256) / total_matches > 60`
(truncating integer division of the wrapped 256-bit product),
`avg_response_time_ms > 500` and `avg_response_time_ms < 240000`. -/
theorem verify_humanity_score_characterization (c t r : Nat) (ht : 0 < t) :
    verify_humanity_score c t r = true ↔
      60 < c * 100 % U256.size / t ∧ 500 < r ∧ r < 240000 := by
  simp [verify_humanity_score, ht.ne', and_assoc]

/-- Witness for the amended C1 at `(61, 100, 501)`. -/
theorem verify_humanity_score_characterization_witness :
    verify_humanity_score 61 100 501 = true :=
  (verify_humanity_score_characterization 61 100 501 (by decide)).mpr (by decide)

/-- C2 counterexample: at `times_fooled_human = 2 ^ 254` and
`total_interactions = 1`, `calculate_deception_rating` does not return the
plain-arithmetic quotient `2 ^ 254 * 100 / 1`: the `U256` product wraps to `0`
modulo `2 ^ 256` and the function returns `0`. -/
theorem calculate_deception_rating_overflow_cex :
    0 < 1 ∧ calculate_deception_rating (2 ^ 254) 1 ≠ 2 ^ 254 * 100 / 1 := by
  refine ⟨by decide, by decide⟩

/-- C2 (amended): for every `times_fooled_human` and `total_interactions > 0`,
`calculate_deception_rating` returns
`(times_fooled_human * 100 mod 2 ^ 256) / total_interactions`, the truncating
integer division of the wrapped 256-bit product. -/
theorem calculate_deception_rating_eq (f t : Nat) (ht : 0 < t) :
    calculate_deception_rating f t = f * 100 % U256.size / t := by
  simp [calculate_deception_rating, ht.ne']

/-- Witness for the amended C2 at `(30, 200)`. -/
theorem calculate_deception_rating_eq_witness :
    calculate_deception_rating 30 200 = 30 * 100 % U256.size / 200 :=
  calculate_deception_rating_eq 30 200 (by decide)

/-- C5 counterexample: with `f1 = 2 ^ 249`, `f2 = t = 2 ^ 255` we have
`f1 ≤ f2 ≤ t` and `t > 0`, yet the rating at `f2` is strictly below the rating
at `f1`: the product `2 ^ 255 * 100` wraps to `0` modulo `2 ^ 256`, so
`calculate_deception_rating` is not monotonically non-decreasing in its first
argument. -/
theorem calculate_deception_rating_mono_cex :
    (2 ^ 249 : Nat) ≤ 2 ^ 255 ∧ (2 ^ 255 : Nat) ≤ 2 ^ 255 ∧ 0 < (2 ^ 255 : Nat) ∧
      calculate_deception_rating (2 ^ 255) (2 ^ 255) <
        calculate_deception_rating (2 ^ 249) (2 ^ 255) := by
  refine ⟨by decide, by decide, by decide, by decide⟩

/-- C5 (amended): for `f1 ≤ f2 ≤ t` with `t > 0`, under the additional
hypothesis that the product `f2 * 100` does not overflow 256 bits, the rating
is non-decreasing in the first argument; and for `f ≤ t1 ≤ t2` with `t1 > 0`
the rating is non-increasing in the second argument (unconditionally). -/
theorem calculate_deception_rating_monotone (f1 f2 f t t1 t2 : Nat)
    (h12 : f1 ≤ f2) (h2t : f2 ≤ t) (ht : 0 < t) (hov : f2 * 100 < U256.size)
    (hft1 : f ≤ t1) (h3 : t1 ≤ t2) (ht1 : 0 < t1) :
    calculate_deception_rating f1 t ≤ calculate_deception_rating f2 t ∧
      calculate_deception_rating f t2 ≤ calculate_deception_rating f t1 := by
  constructor
  · have h1ov : f1 * 100 < U256.size :=
      Nat.lt_of_le_of_lt (Nat.mul_le_mul_right 100 h12) hov
    unfold calculate_deception_rating
    rw [if_neg ht.ne', if_neg ht.ne', Nat.mod_eq_of_lt h1ov, Nat.mod_eq_of_lt hov]
    exact Nat.div_le_div_right (Nat.mul_le_mul_right 100 h12)
  · have ht2 : 0 < t2 := Nat.lt_of_lt_of_le ht1 h3
    unfold calculate_deception_rating
    rw [if_neg ht1.ne', if_neg ht2.ne']
    exact Nat.div_le_div_left h3 ht1

/-- Witness for the amended C5 at `f1 = 1`, `f2 = 2`, `t = 4` and `f = 1`,
`t1 = 2`, `t2 = 3`. -/
theorem calculate_deception_rating_monotone_witness :
    calculate_deception_rating 1 4 ≤ calculate_deception_rating 2 4 ∧
      calculate_deception_rating 1 3 ≤ calculate_deception_rating 1 2 :=
  calculate_deception_rating_monotone 1 2 1 4 2 3 (by decide) (by decide) (by decide)
    (by decide) (by decide) (by decide) (by decide)

/-- C8: for every `times_fooled_human ≤ total_interactions` with
`total_interactions > 0`, the deception rating lies in `[0, 100]`, even though
the multiplication `times_fooled_human * 100` is wrapping 256-bit arithmetic:
the wrapped product never exceeds the true product. -/
theorem calculate_deception_rating_bounded (f t : Nat) (hf : f ≤ t) (ht : 0 < t) :
    0 ≤ calculate_deception_rating f t ∧ calculate_deception_rating f t ≤ 100 := by
  refine ⟨Nat.zero_le _, ?_⟩
  unfold calculate_deception_rating
  rw [if_neg ht.ne']
  calc f * 100 % U256.size / t ≤ f * 100 / t :=
        Nat.div_le_div_right (Nat.mod_le _ _)
    _ ≤ t * 100 / t := Nat.div_le_div_right (Nat.mul_le_mul_right 100 hf)
    _ = 100 := Nat.mul_div_cancel_left 100 ht

/-- Witness for C8 at `(1, 2)`. -/
theorem calculate_deception_rating_bounded_witness :
    0 ≤ calculate_deception_rating 1 2 ∧ calculate_deception_rating 1 2 ≤ 100 :=
  calculate_deception_rating_bounded 1 2 (by decide) (by decide)

/-- C9: for every `total_matches` and `avg_response_time_ms`,
`verify_humanity_score 0 total_matches avg_response_time_ms` returns `false`:
either the zero-denominator guard fires, or the computed accuracy is `0` and
fails the strict `> 60` comparison. -/
theorem verify_humanity_score_zero_correct (t r : Nat) :
    verify_humanity_score 0 t r = false := by
  unfold verify_humanity_score
  rcases Nat.eq_zero_or_pos t with h | h
  · simp [h]
  · simp [h.ne']

/-- C10: for every `t > 0` with `t * 100 < 2 ^ 256` (no overflow in the
multiplication), `calculate_deception_rating t t = 100`: a participant fooled
on every interaction rates exactly `100` percent. -/
theorem calculate_deception_rating_all_fooled (t : Nat) (ht : 0 < t)
    (hov : t * 100 < U256.size) :
    calculate_deception_rating t t = 100 := by
  unfold calculate_deception_rating
  rw [if_neg ht.ne', Nat.mod_eq_of_lt hov]
  exact Nat.mul_div_cancel_left 100 ht

/-- Witness for C10 at `t = 5`. -/
theorem calculate_deception_rating_all_fooled_witness :
    calculate_deception_rating 5 5 = 100 :=
  calculate_deception_rating_all_fooled 5 (by decide) (by decide)

/-- C7: `calculate_deception_rating 30 200 = 15` and
`calculate_deception_rating 200 100 = 200`; in particular the result is not
clamped to `100` when `times_fooled_human > total_interactions`. -/
theorem calculate_deception_rating_examples :
    calculate_deception_rating 30 200 = 15 ∧
    calculate_deception_rating 200 100 = 200 := by
  refine ⟨?_, ?_⟩ <;> decide

end Detective
